import Mathlib

/-!
Shallow embedding of `src/betterbanish.c` (an xbanish derivative): the cursor
visibility state machine (`hide_cursor`, `show_cursor`, the keyboard and mouse
event handlers of `main`), the modifier-filter check, the `-i`/`-m` option
handling, and the input-device registry (`add_device`).

External X11/evdev calls (XQueryPointer, XGetWindowAttributes, screen size,
device capability ioctls) are modelled as explicit environment records, and the
observable collaborator calls (XWarpPointer, XFixesHideCursor,
XFixesShowCursor, XFlush, set_alarm) as an emitted effect list.
-/

namespace Betterbanish

/-- X11 modifier mask constants (X.h). -/
def ShiftMask : Nat := 1
def LockMask : Nat := 2
def ControlMask : Nat := 4
def Mod1Mask : Nat := 8
def Mod2Mask : Nat := 16
def Mod3Mask : Nat := 32
def Mod4Mask : Nat := 64
def Mod5Mask : Nat := 128

/-- The constant 2^32: `ignored` is a C `unsigned int`. -/
def U32 : Nat := 4294967296

/-- The C `enum move_types`; 0 means no move policy configured. -/
def MOVE_NW : Nat := 1
def MOVE_NE : Nat := 2
def MOVE_SW : Nat := 3
def MOVE_SE : Nat := 4
def MOVE_WIN_NW : Nat := 5
def MOVE_WIN_NE : Nat := 6
def MOVE_WIN_SW : Nat := 7
def MOVE_WIN_SE : Nat := 8
def MOVE_CUSTOM : Nat := 9

/-- The run-once configuration read from the command line: the globals
`always_hide`, `keystroke_count`, `jitter`, `ignored`, `move`,
`move_custom_x/y/mask` (the mask kept as its two tested flag bits) and
`timeout` of betterbanish.c. -/
structure Config where
  always_hide : Bool
  keystroke_count : Nat
  jitter : Nat
  ignored : Nat
  move : Nat
  move_custom_x : Int
  move_custom_y : Int
  custom_xneg : Bool
  custom_yneg : Bool
  timeout : Nat
deriving Repr, DecidableEq

/-- Result of `XGetWindowAttributes` for the window under the pointer. -/
structure WinAttrs where
  x : Int
  y : Int
  width : Int
  height : Int
deriving Repr, DecidableEq

/-- The X11 environment consulted by hide_cursor/show_cursor: the
`XQueryPointer` outcome (`none` when it returns False), the attributes of the
window the pointer is in, and the default screen's width and height. -/
structure XEnv where
  queryPointer : Option (Int × Int)
  attrs : WinAttrs
  screenW : Int
  screenH : Int
deriving Repr, DecidableEq

/-- The mutable run-time state of the visibility machine: the globals
`hidden`, `current_keystrokes`, `hide_x`, `hide_y`, `move_x`, `move_y`. -/
structure VisState where
  hidden : Bool
  current_keystrokes : Nat
  hide_x : Int
  hide_y : Int
  move_x : Int
  move_y : Int
deriving Repr, DecidableEq

/-- Observable collaborator calls issued to the display surface. -/
inductive Effect where
  | warpPointer (x y : Int)
  | hideCursorCmd
  | showCursorCmd
  | flush
  | setAlarm
deriving Repr, DecidableEq

/-- All C globals start zeroed: visible, no keystrokes, origins at 0. -/
def initialState : VisState :=
  { hidden := false, current_keystrokes := 0, hide_x := 0, hide_y := 0,
    move_x := 0, move_y := 0 }

/-- Function `hide_cursor` of betterbanish.c. No-op when already hidden. Otherwise
queries the pointer; on success records the position in `hide_x`/`hide_y` and,
when a move policy is set, records the same position in `move_x`/`move_y` and
warps to the policy's target (the C `switch (move)`); on query failure with a
move policy set, marks `move_x`/`move_y` invalid (-1). Always issues
XFixesHideCursor + XFlush and sets `hidden`. The `switch (move)` computing the
warp destination is split out as `warpTargetX`/`warpTargetY`; this definition
is its `x` column. -/
def warpTargetX (cfg : Config) (env : XEnv) : Int :=
  if cfg.move = MOVE_NW then 0
  else if cfg.move = MOVE_NE then env.screenW
  else if cfg.move = MOVE_SW then 0
  else if cfg.move = MOVE_SE then env.screenW
  else if cfg.move = MOVE_WIN_NW then env.attrs.x
  else if cfg.move = MOVE_WIN_NE then env.attrs.x + env.attrs.width
  else if cfg.move = MOVE_WIN_SW then env.attrs.x
  else if cfg.move = MOVE_WIN_SE then env.attrs.x + env.attrs.width
  else if cfg.move = MOVE_CUSTOM then
    (if cfg.custom_xneg then env.screenW else 0) + cfg.move_custom_x
  else 0

/-- The `y` computed by the `switch (move)` of `hide_cursor`. -/
def warpTargetY (cfg : Config) (env : XEnv) : Int :=
  if cfg.move = MOVE_NW then 0
  else if cfg.move = MOVE_NE then 0
  else if cfg.move = MOVE_SW then env.screenH
  else if cfg.move = MOVE_SE then env.screenH
  else if cfg.move = MOVE_WIN_NW then env.attrs.y
  else if cfg.move = MOVE_WIN_NE then env.attrs.y
  else if cfg.move = MOVE_WIN_SW then env.attrs.y + env.attrs.height
  else if cfg.move = MOVE_WIN_SE then env.attrs.y + env.attrs.height
  else if cfg.move = MOVE_CUSTOM then
    (if cfg.custom_yneg then env.screenH else 0) + cfg.move_custom_y
  else 0

/-- Function `hide_cursor` of betterbanish.c, continued (see the doc comment
above `warpTargetX`): the state transition and emitted effects. -/
def hide_cursor (cfg : Config) (env : XEnv) (s : VisState) :
    VisState × List Effect :=
  if s.hidden then (s, [])
  else
    match env.queryPointer with
    | some (px, py) =>
      if cfg.move ≠ 0 then
        ({ s with hidden := true, hide_x := px, hide_y := py,
                  move_x := px, move_y := py },
         [Effect.warpPointer (warpTargetX cfg env) (warpTargetY cfg env),
          Effect.hideCursorCmd, Effect.flush])
      else
        ({ s with hidden := true, hide_x := px, hide_y := py },
         [Effect.hideCursorCmd, Effect.flush])
    | none =>
      if cfg.move ≠ 0 then
        ({ s with hidden := true, move_x := -1, move_y := -1 },
         [Effect.hideCursorCmd, Effect.flush])
      else
        ({ s with hidden := true }, [Effect.hideCursorCmd, Effect.flush])

/-- Function `show_cursor` of betterbanish.c. Resets `current_keystrokes` first, then
re-arms the idle alarm whenever a timeout is configured (even when not
hidden), returns early when not hidden, applies the jitter check (early return
keeping the cursor hidden when the pointer query fails or both axis deltas
from the hide origin are below the threshold), then warps back to a valid
recorded `move_x`/`move_y` and issues XFixesShowCursor + XFlush. -/
def show_cursor (cfg : Config) (env : XEnv) (s : VisState) :
    VisState × List Effect :=
  let s0 := { s with current_keystrokes := 0 }
  let alarmEff : List Effect := if cfg.timeout ≠ 0 then [Effect.setAlarm] else []
  if s0.hidden = false then (s0, alarmEff)
  else
    let reveal : VisState × List Effect :=
      let warpEff : List Effect :=
        if cfg.move ≠ 0 ∧ s0.move_x ≠ -1 ∧ s0.move_y ≠ -1 then
          [Effect.warpPointer s0.move_x s0.move_y]
        else []
      ({ s0 with hidden := false },
       alarmEff ++ warpEff ++ [Effect.showCursorCmd, Effect.flush])
    if cfg.jitter ≠ 0 then
      match env.queryPointer with
      | none => (s0, alarmEff)
      | some (cx, cy) =>
        if (cx - s0.hide_x).natAbs < cfg.jitter ∧
           (cy - s0.hide_y).natAbs < cfg.jitter then
          (s0, alarmEff)
        else reveal
    else reveal

/-- One entry of the `mod_map` built by `get_mod_map`: the modifier's X mask
bit and the non-zero keycodes the server binds to that modifier slot. -/
structure ModMapEntry where
  mask : Nat
  keycodes : List Nat
deriving Repr, DecidableEq

/-- The bit test `(keys_return[keycode >> 3] >> (keycode & 7)) & 1` against
the 32-byte XQueryKeymap bitmap, the bitmap taken as one 256-bit number. -/
def keyHeld (keysReturn : Nat) (keycode : Nat) : Bool :=
  keysReturn.testBit keycode

/-- The ignore-scan of the keyboard handler in `main`: some modifier whose
mask intersects `ignored` has one of its bound keycodes held. -/
def ignoreKeystroke (modMap : List ModMapEntry) (ignored : Nat)
    (keysReturn : Nat) : Bool :=
  modMap.any fun e =>
    (e.mask &&& ignored != 0) && e.keycodes.any fun kc => keyHeld keysReturn kc

/-- The body of the keyboard branch of `main` for one `EV_KEY`/value-1 event:
if no ignored modifier is held, increment `current_keystrokes` and call
`hide_cursor` once the threshold is reached. -/
def onKeyPress (cfg : Config) (env : XEnv) (modMap : List ModMapEntry)
    (keysReturn : Nat) (s : VisState) : VisState × List Effect :=
  if ignoreKeystroke modMap cfg.ignored keysReturn then (s, [])
  else
    let s1 := { s with current_keystrokes := s.current_keystrokes + 1 }
    if cfg.keystroke_count ≤ s1.current_keystrokes then hide_cursor cfg env s1
    else (s1, [])

/-- The raw evdev event types the mouse branch of `main` distinguishes. -/
inductive EvType where
  | evRel
  | evAbs
  | evKey
  | evOther
deriving Repr, DecidableEq

/-- One `struct input_event`, reduced to the fields `main` reads. -/
structure InputEvent where
  etype : EvType
  value : Int
deriving Repr, DecidableEq

/-- The body of the mouse branch of `main` for one raw event: motion
(`EV_REL`/`EV_ABS`) or a press (`EV_KEY` with value 1) calls `show_cursor`,
but only when `always_hide` is unset. -/
def onMouseEvent (cfg : Config) (env : XEnv) (ev : InputEvent)
    (s : VisState) : VisState × List Effect :=
  match ev.etype with
  | EvType.evRel =>
      if cfg.always_hide then (s, []) else show_cursor cfg env s
  | EvType.evAbs =>
      if cfg.always_hide then (s, []) else show_cursor cfg env s
  | EvType.evKey =>
      if ev.value = 1 then
        if cfg.always_hide then (s, []) else show_cursor cfg env s
      else (s, [])
  | EvType.evOther => (s, [])

/-- The X11 branch of `main` on an `XSyncAlarmNotify` event: with a timeout
configured, the idle alarm fires `hide_cursor`. -/
def onIdleAlarm (cfg : Config) (env : XEnv) (s : VisState) :
    VisState × List Effect :=
  if cfg.timeout ≠ 0 then hide_cursor cfg env s else (s, [])

/-- Startup after option parsing: `if (always_hide) hide_cursor();` applied
to the zeroed globals. -/
def startup (cfg : Config) (env : XEnv) : VisState × List Effect :=
  if cfg.always_hide then hide_cursor cfg env initialState
  else (initialState, [])

/-- Folding a burst of keyboard press events (each given by its XQueryKeymap
bitmap) through `onKeyPress`, keeping the state. -/
def runPresses (cfg : Config) (env : XEnv) (modMap : List ModMapEntry)
    (ks : List Nat) (s : VisState) : VisState :=
  ks.foldl (fun st k => (onKeyPress cfg env modMap k st).1) s

/-- The `mod_map` shape `get_mod_map` always builds: the eight standard
modifier slots in order, each with the keycodes the server binds to it. -/
def stdModMap (k0 k1 k2 k3 k4 k5 k6 k7 : List Nat) : List ModMapEntry :=
  [⟨ShiftMask, k0⟩, ⟨LockMask, k1⟩, ⟨ControlMask, k2⟩, ⟨Mod1Mask, k3⟩,
   ⟨Mod2Mask, k4⟩, ⟨Mod3Mask, k5⟩, ⟨Mod4Mask, k6⟩, ⟨Mod5Mask, k7⟩]

/-- The `mods[]` lookup table of `main`: modifier names and masks; the
`"all"` entry's C `int` value -1 becomes the all-ones `unsigned int`. -/
def modsTable : List (String × Nat) :=
  [("shift", ShiftMask), ("lock", LockMask), ("control", ControlMask),
   ("mod1", Mod1Mask), ("mod2", Mod2Mask), ("mod3", Mod3Mask),
   ("mod4", Mod4Mask), ("mod5", Mod5Mask), ("all", U32 - 1)]

/-- Comparison `strcasecmp(a, b) == 0` for the ASCII names involved. -/
def eqCaseless (a b : String) : Bool :=
  a.data.map Char.toLower == b.data.map Char.toLower

/-- The `case 'i'` branch of option parsing: OR in the mask of every table
entry whose name matches case-insensitively, then for `"all"` clear the
Mod2 (numeric-lock) bit via `ignored &= ~Mod2Mask` on the 32-bit value. -/
def handleIgnoreOpt (optarg : String) (ignored : Nat) : Nat :=
  let ign := modsTable.foldl
    (fun acc p => if eqCaseless optarg p.1 then acc ||| p.2 else acc) ignored
  if eqCaseless optarg "all" then ign &&& ((U32 - 1) ^^^ Mod2Mask) else ign

/-- The `case 'i'` branch as a parse step: it has no failure path, so it
never reaches `usage()` (in contrast with `handleMoveOpt`). -/
def stepIgnoreOpt (optarg : String) (ignored : Nat) : Except Unit Nat :=
  Except.ok (handleIgnoreOpt optarg ignored)

/-- The `case 'm'` branch of option parsing: the eight named policies, then
`parse_geometry` (whose XParseGeometry outcome is the `geomOk` input); an
unrecognized value reaches `usage()`, modelled as `Except.error`. -/
def handleMoveOpt (geomOk : Bool) (optarg : String) : Except Unit Nat :=
  if optarg == "nw" then Except.ok MOVE_NW
  else if optarg == "ne" then Except.ok MOVE_NE
  else if optarg == "sw" then Except.ok MOVE_SW
  else if optarg == "se" then Except.ok MOVE_SE
  else if optarg == "wnw" then Except.ok MOVE_WIN_NW
  else if optarg == "wne" then Except.ok MOVE_WIN_NE
  else if optarg == "wsw" then Except.ok MOVE_WIN_SW
  else if optarg == "wse" then Except.ok MOVE_WIN_SE
  else if geomOk then Except.ok MOVE_CUSTOM
  else Except.error ()

/-- Capacity bound `MAX_INPUT_DEVICES` per device role. -/
def MAX_INPUT_DEVICES : Nat := 64

/-- What the evdev ioctls report for a device path: whether `open` succeeds,
whether the `EVIOCGBIT(0, ...)` and `EVIOCGBIT(EV_KEY, ...)` ioctls succeed,
and the capability bits `add_device` tests. -/
structure DeviceCaps where
  openOk : Bool
  evBitsOk : Bool
  hasKey : Bool
  hasRel : Bool
  hasAbs : Bool
  keyBitsOk : Bool
  hasSpace : Bool
  hasBtnMouse : Bool
  hasBtnTouch : Bool
deriving Repr, DecidableEq

/-- The device registry: the `keyboard_paths` and `mouse_paths` arrays (the
parallel fd arrays carry no registry information). -/
structure Registry where
  keyboards : List String
  mice : List String
deriving Repr, DecidableEq

/-- The keyboard classification test of `add_device`: `EV_KEY` support, the
`EVIOCGBIT(EV_KEY)` ioctl succeeding, and the `KEY_SPACE` bit set. -/
def kbMatch (c : DeviceCaps) : Bool :=
  c.hasKey && c.keyBitsOk && c.hasSpace

/-- The pointer classification test of `add_device`: `EV_REL` or `EV_ABS`
support, the ioctl succeeding, and `BTN_MOUSE` or `BTN_TOUCH` set. -/
def ptrMatch (c : DeviceCaps) : Bool :=
  (c.hasRel || c.hasAbs) && c.keyBitsOk && (c.hasBtnMouse || c.hasBtnTouch)

/-- Function `add_device` of betterbanish.c. Returns `false` (the C `return 0`) and
leaves the registry unchanged when the path is already registered under
either role, when `open` or the first ioctl fails, or when neither
classification matches; otherwise appends the path to the keyboard list
(checked first, subject to `MAX_INPUT_DEVICES`) or else to the mouse list and
returns `true` (the C `return fd`). A keyboard branch that fails its inner
ioctl or the `KEY_SPACE` test falls through to the mouse test, as in the C. -/
def add_device (caps : String → DeviceCaps) (path : String) (r : Registry) :
    Bool × Registry :=
  if path ∈ r.keyboards ∨ path ∈ r.mice then (false, r)
  else
    let c := caps path
    if !c.openOk then (false, r)
    else if !c.evBitsOk then (false, r)
    else if c.hasKey && decide (r.keyboards.length < MAX_INPUT_DEVICES) &&
            c.keyBitsOk && c.hasSpace then
      (true, { r with keyboards := r.keyboards ++ [path] })
    else if (c.hasRel || c.hasAbs) &&
            decide (r.mice.length < MAX_INPUT_DEVICES) &&
            c.keyBitsOk && (c.hasBtnMouse || c.hasBtnTouch) then
      (true, { r with mice := r.mice ++ [path] })
    else (false, r)

/-- How often a path occurs in the registry, over both roles. -/
def pathCount (path : String) (r : Registry) : Nat :=
  r.keyboards.count path + r.mice.count path

/-!
Concrete configurations, environments and states used by counterexamples and
witnesses.
-/

/-- A baseline configuration: every option at its default (threshold 1). -/
def cfgDefault : Config :=
  { always_hide := false, keystroke_count := 1, jitter := 0, ignored := 0,
    move := 0, move_custom_x := 0, move_custom_y := 0, custom_xneg := false,
    custom_yneg := false, timeout := 0 }

/-- An environment whose pointer query fails. -/
def envNone : XEnv :=
  { queryPointer := none, attrs := ⟨0, 0, 0, 0⟩, screenW := 0, screenH := 0 }

/-- A modifier map with no keycode bound to any of the eight slots. -/
def mmEmpty : List ModMapEntry := stdModMap [] [] [] [] [] [] [] []

/-- A hidden state with zeroed counters and origins. -/
def sHid : VisState :=
  { hidden := true, current_keystrokes := 0, hide_x := 0, hide_y := 0,
    move_x := 0, move_y := 0 }

/-!
Helper lemmas about `hide_cursor`.
-/

/-- After any `hide_cursor` call the machine is in state Hidden (it either
was already, or the call sets the flag). -/
theorem hide_cursor_hidden (cfg : Config) (env : XEnv) (s : VisState) :
    ((hide_cursor cfg env s).1).hidden = true := by
  unfold hide_cursor
  split
  next h => simpa using h
  next => split <;> split <;> rfl

/-- `hide_cursor` never touches `current_keystrokes`. -/
theorem hide_cursor_count (cfg : Config) (env : XEnv) (s : VisState) :
    ((hide_cursor cfg env s).1).current_keystrokes = s.current_keystrokes := by
  unfold hide_cursor
  split
  next => rfl
  next => split <;> split <;> rfl

/-- `hide_cursor` on an already-hidden state is a silent no-op. -/
theorem hide_cursor_noop (cfg : Config) (env : XEnv) (s : VisState)
    (hs : s.hidden = true) : hide_cursor cfg env s = (s, []) := by
  unfold hide_cursor
  simp [hs]

/-- A non-ignored press always increments the keystroke counter by one (the
increment happens before, and independently of, the threshold check). -/
theorem onKeyPress_count (cfg : Config) (env : XEnv)
    (modMap : List ModMapEntry) (k : Nat) (s : VisState)
    (hign : ignoreKeystroke modMap cfg.ignored k = false) :
    ((onKeyPress cfg env modMap k s).1).current_keystrokes
      = s.current_keystrokes + 1 := by
  unfold onKeyPress
  simp only [hign, Bool.false_eq_true, if_false]
  split
  · rw [hide_cursor_count]
  · rfl

/-- A non-ignored press keeps the invariant tying the hidden flag to the
counter having reached the threshold. -/
theorem onKeyPress_hidden (cfg : Config) (env : XEnv)
    (modMap : List ModMapEntry) (k : Nat) (s : VisState)
    (hign : ignoreKeystroke modMap cfg.ignored k = false)
    (hinv : s.hidden
      = decide (cfg.keystroke_count ≤ s.current_keystrokes)) :
    ((onKeyPress cfg env modMap k s).1).hidden
      = decide (cfg.keystroke_count ≤ s.current_keystrokes + 1) := by
  unfold onKeyPress
  simp only [hign, Bool.false_eq_true, if_false]
  split
  next h =>
    rw [hide_cursor_hidden]
    exact (decide_eq_true (by simpa using h)).symm
  next h =>
    have h1 : ¬ cfg.keystroke_count ≤ s.current_keystrokes + 1 := by
      simpa using h
    have h0 : ¬ cfg.keystroke_count ≤ s.current_keystrokes := by omega
    calc ({ s with current_keystrokes := s.current_keystrokes + 1 } :
            VisState).hidden
        = s.hidden := rfl
      _ = decide (cfg.keystroke_count ≤ s.current_keystrokes) := hinv
      _ = decide (cfg.keystroke_count ≤ s.current_keystrokes + 1) := by
            simp [h0, h1]

/-- Folding non-ignored presses: the counter advances by the burst length and
the hidden flag tracks the threshold comparison. -/
theorem runPresses_spec (cfg : Config) (env : XEnv)
    (modMap : List ModMapEntry) :
    ∀ (ks : List Nat) (s : VisState),
      (∀ k ∈ ks, ignoreKeystroke modMap cfg.ignored k = false) →
      s.hidden = decide (cfg.keystroke_count ≤ s.current_keystrokes) →
      (runPresses cfg env modMap ks s).current_keystrokes
          = s.current_keystrokes + ks.length ∧
      (runPresses cfg env modMap ks s).hidden
          = decide (cfg.keystroke_count ≤ s.current_keystrokes + ks.length)
  | [], s, _, hinv => by simpa [runPresses] using hinv
  | k :: ks, s, hign, hinv => by
    have hk : ignoreKeystroke modMap cfg.ignored k = false :=
      hign k (List.mem_cons_self k ks)
    have hks : ∀ j ∈ ks, ignoreKeystroke modMap cfg.ignored j = false :=
      fun j hj => hign j (List.mem_cons_of_mem k hj)
    have hstep : runPresses cfg env modMap (k :: ks) s
        = runPresses cfg env modMap ks ((onKeyPress cfg env modMap k s).1) :=
      rfl
    have hc := onKeyPress_count cfg env modMap k s hk
    have hh := onKeyPress_hidden cfg env modMap k s hk hinv
    have ih := runPresses_spec cfg env modMap ks
      ((onKeyPress cfg env modMap k s).1) hks (by rw [hh, hc])
    rw [hstep]
    refine ⟨?_, ?_⟩
    · rw [ih.1, hc]
      simp [Nat.add_assoc, Nat.add_comm 1 ks.length]
    · rw [ih.2, hc]
      congr 1
      simp [Nat.add_assoc, Nat.add_comm 1 ks.length]

/-- C1: for every sequence of keyboard press events delivered with no ignored
modifier held, starting from a visible state with a fresh (zero) keystroke
counter, the cursor is hidden exactly once the number of presses reaches the
configured threshold (at least 1, default 1), and on no earlier press; the
counter equals the number of presses. -/
theorem hide_exactly_at_threshold (cfg : Config) (env : XEnv)
    (modMap : List ModMapEntry) (ks : List Nat) (s : VisState)
    (hthr : 1 ≤ cfg.keystroke_count)
    (hvis : s.hidden = false) (hcnt : s.current_keystrokes = 0)
    (hign : ∀ k ∈ ks, ignoreKeystroke modMap cfg.ignored k = false) :
    ((runPresses cfg env modMap ks s).hidden = true
        ↔ cfg.keystroke_count ≤ ks.length) ∧
    (runPresses cfg env modMap ks s).current_keystrokes = ks.length := by
  have hinv : s.hidden = decide (cfg.keystroke_count ≤ s.current_keystrokes) := by
    rw [hvis, hcnt]
    exact (decide_eq_false (by omega)).symm
  have h := runPresses_spec cfg env modMap ks s hign hinv
  refine ⟨?_, by simpa [hcnt] using h.1⟩
  rw [h.2, hcnt]
  simp

/-- Witness for C1: threshold 2, two non-ignored presses from the initial
state hide the cursor and leave the counter at 2. -/
theorem hide_exactly_at_threshold_witness :
    ((runPresses { cfgDefault with keystroke_count := 2 } envNone mmEmpty
        [0, 0] initialState).hidden = true
      ↔ ({ cfgDefault with keystroke_count := 2 } : Config).keystroke_count
          ≤ [0, 0].length) ∧
    (runPresses { cfgDefault with keystroke_count := 2 } envNone mmEmpty
        [0, 0] initialState).current_keystrokes = [0, 0].length :=
  hide_exactly_at_threshold { cfgDefault with keystroke_count := 2 } envNone
    mmEmpty [0, 0] initialState (by decide) (by decide) (by decide) (by decide)

/-- C2: with a jitter threshold J > 0 configured and the cursor hidden, a
motion whose queried position stays within J of the hide origin on both axes
leaves the cursor hidden and emits nothing beyond the idle-alarm re-arm,
while a motion at distance at least J on either axis reveals the cursor. -/
theorem jitter_guard (cfg : Config) (env : XEnv) (s : VisState)
    (cx cy : Int)
    (hj : 0 < cfg.jitter) (hh : s.hidden = true)
    (hq : env.queryPointer = some (cx, cy)) :
    ((cx - s.hide_x).natAbs < cfg.jitter ∧
       (cy - s.hide_y).natAbs < cfg.jitter →
      (show_cursor cfg env s).1.hidden = true ∧
      (show_cursor cfg env s).2
        = (if cfg.timeout ≠ 0 then [Effect.setAlarm] else [])) ∧
    (cfg.jitter ≤ (cx - s.hide_x).natAbs ∨
       cfg.jitter ≤ (cy - s.hide_y).natAbs →
      (show_cursor cfg env s).1.hidden = false) := by
  have hjz : ¬ cfg.jitter = 0 := by omega
  constructor
  · intro hin
    unfold show_cursor
    simp only [hh, hq, hjz]
    simp [hin.1, hin.2, hjz]
  · intro hout
    have hnin : ¬ ((cx - s.hide_x).natAbs < cfg.jitter ∧
        (cy - s.hide_y).natAbs < cfg.jitter) := by omega
    unfold show_cursor
    simp only [hh, hq, hjz]
    simp [hnin, hjz]

/-- A hidden state whose hide origin is (100, 100). -/
def sHid100 : VisState :=
  { hidden := true, current_keystrokes := 0, hide_x := 100, hide_y := 100,
    move_x := 0, move_y := 0 }

/-- Witness for C2 (the spec's own scenario): jitter 5, hidden at (100,100);
motion to (102,103) keeps the cursor hidden, motion to (100,110) reveals. -/
theorem jitter_guard_witness :
    ((show_cursor { cfgDefault with jitter := 5 }
        { envNone with queryPointer := some (102, 103) } sHid100).1.hidden
      = true) ∧
    ((show_cursor { cfgDefault with jitter := 5 }
        { envNone with queryPointer := some (100, 110) } sHid100).1.hidden
      = false) :=
  ⟨((jitter_guard { cfgDefault with jitter := 5 }
      { envNone with queryPointer := some (102, 103) } sHid100 102 103
      (by decide) (by decide) (by decide)).1 (by decide)).1,
   (jitter_guard { cfgDefault with jitter := 5 }
      { envNone with queryPointer := some (100, 110) } sHid100 100 110
      (by decide) (by decide) (by decide)).2 (by decide)⟩

/-- Counterexample to C3: with threshold 5 and the cursor already hidden, a
non-ignored press is not ignored by the state machine — it moves the
keystroke counter from 0 to 1. The keyboard branch of `main` increments
`current_keystrokes` without checking `hiding` first. -/
theorem press_while_hidden_cex :
    ((onKeyPress { cfgDefault with keystroke_count := 5 } envNone mmEmpty 0
        sHid).1).current_keystrokes = 1 ∧ (1 : Nat) ≠ 0 := by
  constructor
  · decide
  · decide

/-- C3 as amended: a press arriving while Hidden leaves the visibility flag
and every other field unchanged and emits no effect, but it still increments
`current_keystrokes` whenever no ignored modifier is held (`hide_cursor`,
when reached, is the part that is a no-op). -/
theorem press_while_hidden_counts (cfg : Config) (env : XEnv)
    (modMap : List ModMapEntry) (k : Nat) (s : VisState)
    (hh : s.hidden = true) :
    (onKeyPress cfg env modMap k s).1
      = { s with current_keystrokes :=
            if ignoreKeystroke modMap cfg.ignored k then s.current_keystrokes
            else s.current_keystrokes + 1 } ∧
    (onKeyPress cfg env modMap k s).2 = [] := by
  unfold onKeyPress
  by_cases hig : ignoreKeystroke modMap cfg.ignored k
  · simp [hig]
  · simp only [hig, Bool.false_eq_true, if_false]
    have hh1 : ({ s with current_keystrokes := s.current_keystrokes + 1 } :
        VisState).hidden = true := hh
    split
    · rw [hide_cursor_noop cfg env _ hh1]
      simp [hig]
    · simp [hig]

/-- Witness for C3's amended theorem at the counterexample input. -/
theorem press_while_hidden_counts_witness :
    (onKeyPress { cfgDefault with keystroke_count := 5 } envNone mmEmpty 0
        sHid).1 = { sHid with current_keystrokes := 1 } ∧
    (onKeyPress { cfgDefault with keystroke_count := 5 } envNone mmEmpty 0
        sHid).2 = [] := by
  have h := press_while_hidden_counts { cfgDefault with keystroke_count := 5 }
    envNone mmEmpty 0 sHid (by decide)
  refine ⟨?_, h.2⟩
  rw [h.1]
  decide

/-- Counterexample to C4: with an idle timeout configured (here 10 s) and the
cursor already visible, `show_cursor` does make a collaborator call — it
re-arms the idle alarm — so "no externally observable effect for every
configuration" fails. -/
theorem show_visible_alarm_cex :
    (show_cursor { cfgDefault with timeout := 10 } envNone initialState).2
      = [Effect.setAlarm] ∧
    ([Effect.setAlarm] : List Effect) ≠ [] := by
  constructor
  · decide
  · decide

/-- C4 as amended: calling `show_cursor` while visible resets the keystroke
counter to 0 and changes nothing else in the state; it emits no collaborator
call, except that with an idle timeout configured it re-arms the idle alarm
(and nothing else). -/
theorem show_visible_effects (cfg : Config) (env : XEnv) (s : VisState)
    (hv : s.hidden = false) :
    (show_cursor cfg env s).1 = { s with current_keystrokes := 0 } ∧
    (show_cursor cfg env s).2
      = (if cfg.timeout ≠ 0 then [Effect.setAlarm] else []) := by
  unfold show_cursor
  simp [hv]

/-- Witness for C4's amended theorem: with no timeout, a visible-state show
only zeroes the counter and emits nothing. -/
theorem show_visible_effects_witness :
    (show_cursor cfgDefault envNone
        { initialState with current_keystrokes := 3 }).1
      = { { initialState with current_keystrokes := 3 } with
          current_keystrokes := 0 } ∧
    (show_cursor cfgDefault envNone
        { initialState with current_keystrokes := 3 }).2
      = (if cfgDefault.timeout ≠ 0 then [Effect.setAlarm] else []) :=
  show_visible_effects cfgDefault envNone
    { initialState with current_keystrokes := 3 } (by decide)

/-- ORing into a value below 2^32 the all-ones 32-bit mask yields the
all-ones mask. -/
theorem or_all_ones (m : Nat) (hm : m < U32) : m ||| (U32 - 1) = U32 - 1 := by
  have h32 : U32 = 2 ^ 32 := by norm_num [U32]
  apply Nat.eq_of_testBit_eq
  intro i
  rw [Nat.testBit_or]
  by_cases hi : i < 32
  · have ht : (U32 - 1).testBit i = true := by
      rw [h32, Nat.testBit_two_pow_sub_one]
      simpa using hi
    simp [ht]
  · have hmb : m.testBit i = false := by
      refine Nat.testBit_eq_false_of_lt (lt_of_lt_of_le (h32 ▸ hm) ?_)
      exact Nat.pow_le_pow_right (by norm_num) (by omega)
    have hub : (U32 - 1).testBit i = false := by
      rw [h32, Nat.testBit_two_pow_sub_one]
      simpa using hi
    simp [hmb, hub]

/-- Counterexample to C5: after `-i all` the ignore mask is 4294967279
(0xFFFFFFEF: every bit of the 32-bit word except Mod2's), not 239 (0xEF:
the union of the eight modifier mask bits minus Mod2): the C code ORs in the
`int` -1 of the `"all"` table entry before clearing Mod2Mask. -/
theorem ignore_all_value_cex :
    handleIgnoreOpt "all" 0 = 4294967279 ∧ (4294967279 : Nat) ≠ 239 := by
  constructor
  · decide
  · decide

/-- C5 as amended: `-i all` sets the ignore mask to the all-ones 32-bit word
minus Mod2's bit (4294967279), whatever was accumulated before; restricted to
the eight modifier masks that is every modifier except numeric-lock, so under
that mask a press is suppressed exactly when some keycode bound to a modifier
slot other than Mod2 is held. -/
theorem ignore_all_mask (m : Nat) (hm : m < U32)
    (k0 k1 k2 k3 k4 k5 k6 k7 : List Nat) (keys : Nat) :
    handleIgnoreOpt "all" m = 4294967279 ∧
    ignoreKeystroke (stdModMap k0 k1 k2 k3 k4 k5 k6 k7) 4294967279 keys
      = (k0.any (keyHeld keys) || (k1.any (keyHeld keys) ||
         (k2.any (keyHeld keys) || (k3.any (keyHeld keys) ||
         (k5.any (keyHeld keys) || (k6.any (keyHeld keys) ||
          k7.any (keyHeld keys))))))) := by
  constructor
  · have e1 : eqCaseless "all" "shift" = false := by decide
    have e2 : eqCaseless "all" "lock" = false := by decide
    have e3 : eqCaseless "all" "control" = false := by decide
    have e4 : eqCaseless "all" "mod1" = false := by decide
    have e5 : eqCaseless "all" "mod2" = false := by decide
    have e6 : eqCaseless "all" "mod3" = false := by decide
    have e7 : eqCaseless "all" "mod4" = false := by decide
    have e8 : eqCaseless "all" "mod5" = false := by decide
    have e9 : eqCaseless "all" "all" = true := by decide
    unfold handleIgnoreOpt modsTable
    simp only [List.foldl, e1, e2, e3, e4, e5, e6, e7, e8, e9,
      Bool.false_eq_true, if_false, if_true]
    rw [or_all_ones m hm]
    decide
  · have b1 : ((1 : Nat) &&& 4294967279 != 0) = true := by decide
    have b2 : ((2 : Nat) &&& 4294967279 != 0) = true := by decide
    have b3 : ((4 : Nat) &&& 4294967279 != 0) = true := by decide
    have b4 : ((8 : Nat) &&& 4294967279 != 0) = true := by decide
    have b5 : ((16 : Nat) &&& 4294967279 != 0) = false := by decide
    have b6 : ((32 : Nat) &&& 4294967279 != 0) = true := by decide
    have b7 : ((64 : Nat) &&& 4294967279 != 0) = true := by decide
    have b8 : ((128 : Nat) &&& 4294967279 != 0) = true := by decide
    simp [ignoreKeystroke, stdModMap, ShiftMask, LockMask, ControlMask,
      Mod1Mask, Mod2Mask, Mod3Mask, Mod4Mask, Mod5Mask,
      b1, b2, b3, b4, b5, b6, b7, b8]

/-- Witness for C5's amended theorem: with space (keycode 65) bound to shift
and keycode 77 bound to Mod2, and both held, the press is suppressed because
of the shift binding, while the Mod2 binding alone would not suppress it. -/
theorem ignore_all_mask_witness :
    handleIgnoreOpt "all" 0 = 4294967279 ∧
    ignoreKeystroke (stdModMap [65] [] [] [] [77] [] [] []) 4294967279
        (2 ^ 65 + 2 ^ 77)
      = ([65].any (keyHeld (2 ^ 65 + 2 ^ 77)) || (([] : List Nat).any
         (keyHeld (2 ^ 65 + 2 ^ 77)) || (([] : List Nat).any
         (keyHeld (2 ^ 65 + 2 ^ 77)) || (([] : List Nat).any
         (keyHeld (2 ^ 65 + 2 ^ 77)) || (([] : List Nat).any
         (keyHeld (2 ^ 65 + 2 ^ 77)) || (([] : List Nat).any
         (keyHeld (2 ^ 65 + 2 ^ 77)) || ([] : List Nat).any
         (keyHeld (2 ^ 65 + 2 ^ 77)))))))) :=
  ignore_all_mask 0 (by decide) [65] [] [] [] [77] [] [] [] (2 ^ 65 + 2 ^ 77)

/-- The nw-corner configuration of the C6 counterexample. -/
def cfgMoveNW : Config := { cfgDefault with move := MOVE_NW }

/-- An environment with the pointer at (5, 7) on a 100 x 80 screen. -/
def envAt57 : XEnv :=
  { queryPointer := some (5, 7), attrs := ⟨20, 30, 40, 50⟩,
    screenW := 100, screenH := 80 }

/-- Counterexample to C6: with the nw screen-corner policy and the pointer at
(5, 7), the move target `hide_cursor` records is (5, 7) — the pre-hide
pointer position — not the screen corner (0, 0) the claim asserts; the corner
is only the destination of the warp issued at hide time. -/
theorem move_target_origin_cex :
    ((hide_cursor cfgMoveNW envAt57 initialState).1.move_x,
     (hide_cursor cfgMoveNW envAt57 initialState).1.move_y) = (5, 7) ∧
    ((5 : Int), (7 : Int)) ≠ ((0 : Int), (0 : Int)) := by
  constructor
  · decide
  · decide

/-- C6 as amended: with a move policy set and the pointer queried at
(px, py), `hide_cursor` *warps* to the policy's corner — the four screen
corners for the screen policies regardless of window state, the window's
corners for the window policies — while the *recorded* move target is the
pre-hide pointer position (px, py); `show_cursor` then warps back to that
recorded position (not the corner) before revealing. -/
theorem hide_warp_show_restore (cfg : Config) (env : XEnv) (s : VisState)
    (px py : Int) (hv : s.hidden = false)
    (hq : env.queryPointer = some (px, py)) (hm : cfg.move ≠ 0) :
    ((hide_cursor cfg env s).1.move_x = px ∧
     (hide_cursor cfg env s).1.move_y = py) ∧
    ((cfg.move = MOVE_NW →
       (hide_cursor cfg env s).2
         = [Effect.warpPointer 0 0, Effect.hideCursorCmd, Effect.flush]) ∧
     (cfg.move = MOVE_NE →
       (hide_cursor cfg env s).2
         = [Effect.warpPointer env.screenW 0, Effect.hideCursorCmd,
            Effect.flush]) ∧
     (cfg.move = MOVE_SW →
       (hide_cursor cfg env s).2
         = [Effect.warpPointer 0 env.screenH, Effect.hideCursorCmd,
            Effect.flush]) ∧
     (cfg.move = MOVE_SE →
       (hide_cursor cfg env s).2
         = [Effect.warpPointer env.screenW env.screenH, Effect.hideCursorCmd,
            Effect.flush]) ∧
     (cfg.move = MOVE_WIN_NW →
       (hide_cursor cfg env s).2
         = [Effect.warpPointer env.attrs.x env.attrs.y, Effect.hideCursorCmd,
            Effect.flush]) ∧
     (cfg.move = MOVE_WIN_NE →
       (hide_cursor cfg env s).2
         = [Effect.warpPointer (env.attrs.x + env.attrs.width) env.attrs.y,
            Effect.hideCursorCmd, Effect.flush]) ∧
     (cfg.move = MOVE_WIN_SW →
       (hide_cursor cfg env s).2
         = [Effect.warpPointer env.attrs.x (env.attrs.y + env.attrs.height),
            Effect.hideCursorCmd, Effect.flush]) ∧
     (cfg.move = MOVE_WIN_SE →
       (hide_cursor cfg env s).2
         = [Effect.warpPointer (env.attrs.x + env.attrs.width)
              (env.attrs.y + env.attrs.height),
            Effect.hideCursorCmd, Effect.flush])) ∧
    (∀ t : VisState, t.hidden = true → cfg.jitter = 0 →
      t.move_x ≠ -1 → t.move_y ≠ -1 →
      (show_cursor cfg env t).1.hidden = false ∧
      (show_cursor cfg env t).2
        = (if cfg.timeout ≠ 0 then [Effect.setAlarm] else [])
            ++ [Effect.warpPointer t.move_x t.move_y,
                Effect.showCursorCmd, Effect.flush]) := by
  refine ⟨?_, ?_, ?_⟩
  · unfold hide_cursor
    simp [hv, hq, hm]
  · refine ⟨?_, ?_, ?_, ?_, ?_, ?_, ?_, ?_⟩ <;>
      · intro hmv
        unfold hide_cursor warpTargetX warpTargetY
        simp [hv, hq, hm, hmv, MOVE_NW, MOVE_NE, MOVE_SW, MOVE_SE,
          MOVE_WIN_NW, MOVE_WIN_NE, MOVE_WIN_SW, MOVE_WIN_SE, MOVE_CUSTOM]
  · intro t ht hj hmx hmy
    unfold show_cursor
    simp [ht, hj, hm, hmx, hmy]

/-- Witness for C6's amended theorem: nw policy, pointer at (5, 7) on a
100 x 80 screen; hide warps to (0, 0) and a later show warps back to the
recorded (5, 7). -/
theorem hide_warp_show_restore_witness :
    ((hide_cursor cfgMoveNW envAt57 initialState).1.move_x = 5 ∧
     (hide_cursor cfgMoveNW envAt57 initialState).1.move_y = 7) ∧
    (hide_cursor cfgMoveNW envAt57 initialState).2
      = [Effect.warpPointer 0 0, Effect.hideCursorCmd, Effect.flush] ∧
    (show_cursor cfgMoveNW envAt57
        (hide_cursor cfgMoveNW envAt57 initialState).1).2
      = (if cfgMoveNW.timeout ≠ 0 then [Effect.setAlarm] else [])
          ++ [Effect.warpPointer
                (hide_cursor cfgMoveNW envAt57 initialState).1.move_x
                (hide_cursor cfgMoveNW envAt57 initialState).1.move_y,
              Effect.showCursorCmd, Effect.flush] := by
  have h := hide_warp_show_restore cfgMoveNW envAt57 initialState 5 7
    (by decide) (by decide) (by decide)
  refine ⟨h.1, h.2.1.1 (by decide), ?_⟩
  exact (h.2.2 (hide_cursor cfgMoveNW envAt57 initialState).1
    (by decide) (by decide) (by decide) (by decide)).2

/-- C7: in always-hide mode no pointer-source event (motion or press) ever
calls `show_cursor` — every mouse event is a complete no-op; the keyboard
transition does not depend on the flag at all; an idle-timer alarm still
drives the machine to Hidden; and the startup state is Hidden. -/
theorem always_hide_asymmetry (cfg : Config) (env : XEnv) (s : VisState)
    (ha : cfg.always_hide = true) :
    (∀ ev : InputEvent, onMouseEvent cfg env ev s = (s, [])) ∧
    (∀ (b : Bool) (modMap : List ModMapEntry) (k : Nat),
       onKeyPress { cfg with always_hide := b } env modMap k s
         = onKeyPress cfg env modMap k s) ∧
    (cfg.timeout ≠ 0 → (onIdleAlarm cfg env s).1.hidden = true) ∧
    (startup cfg env).1.hidden = true := by
  refine ⟨?_, ?_, ?_, ?_⟩
  · intro ev
    rcases ev with ⟨et, v⟩
    cases et <;> simp [onMouseEvent, ha]
  · intro b modMap k
    rfl
  · intro ht
    unfold onIdleAlarm
    simp [ht, hide_cursor_hidden]
  · unfold startup
    simp [ha, hide_cursor_hidden]

/-- An always-hide configuration with an idle timeout for the C7 witness. -/
def cfgAH : Config := { cfgDefault with always_hide := true, timeout := 10 }

/-- Witness for C7: a relative-motion mouse event is a no-op, the keyboard
transition ignores the flag, the idle alarm hides, startup starts Hidden. -/
theorem always_hide_asymmetry_witness :
    onMouseEvent cfgAH envAt57 ⟨EvType.evRel, 0⟩ initialState
      = (initialState, []) ∧
    onKeyPress { cfgAH with always_hide := false } envAt57 mmEmpty 0
        initialState
      = onKeyPress cfgAH envAt57 mmEmpty 0 initialState ∧
    (onIdleAlarm cfgAH envAt57 initialState).1.hidden = true ∧
    (startup cfgAH envAt57).1.hidden = true := by
  have h := always_hide_asymmetry cfgAH envAt57 initialState (by decide)
  exact ⟨h.1 ⟨EvType.evRel, 0⟩, h.2.1 false mmEmpty 0, h.2.2.1 (by decide),
    h.2.2.2⟩

/-- C8: for a path already registered under either role, `add_device`
returns false and leaves the registry completely unchanged; consequently if
a fresh path is successfully added, it is registered exactly once and a
second add of the same path is a rejected no-op. -/
theorem add_device_duplicate (caps : String → DeviceCaps) (path : String)
    (r : Registry) :
    (path ∈ r.keyboards ∨ path ∈ r.mice → add_device caps path r = (false, r)) ∧
    (path ∉ r.keyboards → path ∉ r.mice → (add_device caps path r).1 = true →
      pathCount path (add_device caps path r).2 = 1 ∧
      add_device caps path (add_device caps path r).2
        = (false, (add_device caps path r).2)) := by
  constructor
  · intro h
    unfold add_device
    rw [if_pos h]
  · intro hk hm htrue
    have hni : ¬ (path ∈ r.keyboards ∨ path ∈ r.mice) := by tauto
    by_cases ho : (caps path).openOk = true
    · by_cases he : (caps path).evBitsOk = true
      · by_cases hkb : ((caps path).hasKey &&
            decide (r.keyboards.length < MAX_INPUT_DEVICES) &&
            (caps path).keyBitsOk && (caps path).hasSpace) = true
        · have hr2 : add_device caps path r
              = (true, { r with keyboards := r.keyboards ++ [path] }) := by
            unfold add_device
            rw [if_neg hni]
            simp only [ho, he, hkb, Bool.not_true, Bool.false_eq_true,
              if_false, if_true]
          rw [hr2]
          refine ⟨?_, ?_⟩
          · simp [pathCount, List.count_append,
              List.count_eq_zero.mpr hk, List.count_eq_zero.mpr hm]
          · unfold add_device
            rw [if_pos (Or.inl (by simp))]
        · by_cases hmc : (((caps path).hasRel || (caps path).hasAbs) &&
              decide (r.mice.length < MAX_INPUT_DEVICES) &&
              (caps path).keyBitsOk &&
              ((caps path).hasBtnMouse || (caps path).hasBtnTouch)) = true
          · have hr2 : add_device caps path r
                = (true, { r with mice := r.mice ++ [path] }) := by
              unfold add_device
              rw [if_neg hni]
              simp only [ho, he, hkb, hmc, Bool.not_true, Bool.false_eq_true,
                if_false, if_true]
            rw [hr2]
            refine ⟨?_, ?_⟩
            · simp [pathCount, List.count_append,
                List.count_eq_zero.mpr hk, List.count_eq_zero.mpr hm]
            · unfold add_device
              rw [if_pos (Or.inr (by simp))]
          · exfalso
            unfold add_device at htrue
            rw [if_neg hni] at htrue
            simp [ho, he, hkb, hmc] at htrue
      · exfalso
        unfold add_device at htrue
        rw [if_neg hni] at htrue
        simp [ho, he] at htrue
    · exfalso
      unfold add_device at htrue
      rw [if_neg hni] at htrue
      simp [ho] at htrue

/-- A capability report matching both the keyboard and the pointer test. -/
def capsBoth : DeviceCaps :=
  { openOk := true, evBitsOk := true, hasKey := true, hasRel := true,
    hasAbs := true, keyBitsOk := true, hasSpace := true, hasBtnMouse := true,
    hasBtnTouch := true }

/-- Witness for C8: adding a fresh path to the empty registry and then
adding it again leaves exactly one entry and rejects the second add. -/
theorem add_device_duplicate_witness :
    pathCount "event0" (add_device (fun _ => capsBoth) "event0" ⟨[], []⟩).2
        = 1 ∧
    add_device (fun _ => capsBoth) "event0"
        (add_device (fun _ => capsBoth) "event0" ⟨[], []⟩).2
      = (false, (add_device (fun _ => capsBoth) "event0" ⟨[], []⟩).2) :=
  (add_device_duplicate (fun _ => capsBoth) "event0" ⟨[], []⟩).2
    (by simp) (by simp) (by decide)

/-- C9: a device whose capabilities pass both the keyboard and the pointer
test is registered as a keyboard — the keyboard test runs first — provided it
opens, reports its capability bitmap, is not yet registered and the keyboard
list is below capacity; and `add_device` never touches both role lists, so
every device is registered under at most one role. -/
theorem keyboard_priority (caps : String → DeviceCaps) (path : String)
    (r : Registry)
    (ho : (caps path).openOk = true) (he : (caps path).evBitsOk = true)
    (hkb : kbMatch (caps path) = true) (_hpt : ptrMatch (caps path) = true)
    (hk : path ∉ r.keyboards) (hm : path ∉ r.mice)
    (hcap : r.keyboards.length < MAX_INPUT_DEVICES) :
    add_device caps path r
      = (true, { r with keyboards := r.keyboards ++ [path] }) ∧
    (∀ (caps2 : String → DeviceCaps) (p2 : String) (r2 : Registry),
      (add_device caps2 p2 r2).2.keyboards = r2.keyboards ∨
      (add_device caps2 p2 r2).2.mice = r2.mice) := by
  constructor
  · have hni : ¬ (path ∈ r.keyboards ∨ path ∈ r.mice) := by tauto
    simp only [kbMatch, Bool.and_eq_true] at hkb
    unfold add_device
    rw [if_neg hni]
    simp [ho, he, hkb.1.1, hkb.1.2, hkb.2, hcap]
  · intro caps2 p2 r2
    unfold add_device
    split
    next => exact Or.inl rfl
    next =>
      dsimp only
      split
      next => exact Or.inl rfl
      next =>
        split
        next => exact Or.inl rfl
        next =>
          split
          next => exact Or.inr rfl
          next =>
            split
            next => exact Or.inl rfl
            next => exact Or.inl rfl

/-- Witness for C9: a both-matching device joins the empty registry as a
keyboard, and role lists are never both extended. -/
theorem keyboard_priority_witness :
    add_device (fun _ => capsBoth) "event1" ⟨[], []⟩
      = (true, { (⟨[], []⟩ : Registry) with keyboards := [] ++ ["event1"] }) ∧
    ((add_device (fun _ => capsBoth) "event1" ⟨[], []⟩).2.keyboards = [] ∨
     (add_device (fun _ => capsBoth) "event1" ⟨[], []⟩).2.mice = []) := by
  have h := keyboard_priority (fun _ => capsBoth) "event1" ⟨[], []⟩
    (by decide) (by decide) (by decide) (by decide) (by simp) (by simp)
    (by decide)
  exact ⟨h.1, h.2 (fun _ => capsBoth) "event1" ⟨[], []⟩⟩

/-- Folding the `-i` lookup over entries none of which matches the argument
leaves the accumulated mask untouched. -/
theorem foldl_ignore_unchanged (optarg : String) :
    ∀ (l : List (String × Nat)) (acc : Nat),
      (∀ p ∈ l, eqCaseless optarg p.1 = false) →
      l.foldl (fun acc p => if eqCaseless optarg p.1 then acc ||| p.2 else acc)
          acc = acc
  | [], _, _ => rfl
  | p :: l, acc, h => by
    have hp : eqCaseless optarg p.1 = false := h p (List.mem_cons_self p l)
    have hl : ∀ q ∈ l, eqCaseless optarg q.1 = false :=
      fun q hq => h q (List.mem_cons_of_mem p hq)
    simp only [List.foldl_cons, hp, Bool.false_eq_true, if_false]
    exact foldl_ignore_unchanged optarg l acc hl

/-- C10: a `-i` argument matching none of the recognized modifier names
(case-insensitively) is a silent no-op — the ignore mask is unchanged and
option processing continues without reaching `usage()` — whereas a `-m`
argument that is neither a recognized policy name nor a parsable geometry
reaches `usage()` (the error outcome). -/
theorem unknown_ignore_noop (optarg : String) (ignored : Nat)
    (h : ∀ p ∈ modsTable, eqCaseless optarg p.1 = false) :
    stepIgnoreOpt optarg ignored = Except.ok ignored ∧
    (∀ marg : String,
      marg ∉ (["nw", "ne", "sw", "se", "wnw", "wne", "wsw", "wse"] :
        List String) →
      handleMoveOpt false marg = Except.error ()) := by
  constructor
  · have hall : eqCaseless optarg "all" = false :=
      h ("all", U32 - 1) (by simp [modsTable])
    unfold stepIgnoreOpt handleIgnoreOpt
    rw [foldl_ignore_unchanged optarg modsTable ignored h]
    simp [hall]
  · intro marg hmem
    simp only [List.mem_cons, List.mem_singleton, not_or] at hmem
    obtain ⟨h1, h2, h3, h4, h5, h6, h7, h8, -⟩ := hmem
    unfold handleMoveOpt
    simp [h1, h2, h3, h4, h5, h6, h7, h8]

/-- Witness for C10: the unrecognized name "bogus" leaves a mask of 7
untouched under `-i`, while the same string given to `-m` (with the
geometry parse failing) is the usage error. -/
theorem unknown_ignore_noop_witness :
    stepIgnoreOpt "bogus" 7 = Except.ok 7 ∧
    handleMoveOpt false "bogus" = Except.error () := by
  have h := unknown_ignore_noop "bogus" 7 (by decide)
  exact ⟨h.1, h.2 "bogus" (by decide)⟩

end Betterbanish
